import Mathlib

/-!
Shallow embedding of the two computational cores of the
Electromagnetism-Applets repository:

* `Lorentz.particle_trajectory` — helical trajectory of a charged particle
  in a uniform magnetic field (notebook `Lorentz-test-Final.ipynb`);
* `Faraday.faraday_simulation` — magnetic flux and induced EMF of a magnet
  moving past a coil (notebook `Faraday's Law Simulation.ipynb`).

Slider parameters (Python floats) are embedded as rationals; the
transcendental computations (`np.cos`, `np.sin`, `np.exp`) are embedded as
the corresponding real functions, so the coordinate samples live in `ℝ`.
-/

namespace Lorentz

/-- Charge of the particle, `q = 1.6e-19` C, a fixed module-level constant
in the source. -/
def q : ℚ := 16 / 10 ^ 20

/-- Mass of the particle, `m = 9.11e-31` kg, a fixed module-level constant
in the source. -/
def m : ℚ := 911 / 10 ^ 33

/-- `np.linspace 0 t_max num_points` at index `i`: uniformly spaced samples
over `[0, t_max]`, `t_i = t_max * i / (num_points - 1)`; a single-point grid
is `[0]`. -/
def linspace (t_max : ℚ) (num_points i : ℕ) : ℚ :=
  if num_points ≤ 1 then 0 else t_max * i / (num_points - 1)

/-- `r = m * v_perp / (q * B)`, the radius of circular motion computed by
`particle_trajectory`. -/
def radius (B v_perp : ℚ) : ℚ := m * v_perp / (q * B)

/-- `omega = q * B / m`, the angular velocity computed by
`particle_trajectory`. -/
def omega (B : ℚ) : ℚ := q * B / m

/-- The `i`-th sample `(x_i, y_i, z_i)` of the trajectory:
`x = r * cos (omega * t)`, `y = r * sin (omega * t)`, `z = v_parallel * t`
with `t = linspace t_max num_points i`. -/
noncomputable def trajPoint (B v_perp v_parallel t_max : ℚ) (num_points i : ℕ) :
    ℝ × ℝ × ℝ :=
  ((radius B v_perp : ℝ) * Real.cos ((omega B * linspace t_max num_points i : ℚ)),
   (radius B v_perp : ℝ) * Real.sin ((omega B * linspace t_max num_points i : ℚ)),
   ((v_parallel * linspace t_max num_points i : ℚ) : ℝ))

/-- `particle_trajectory B v_perp v_parallel t_max num_points` from the
source (defaults there: `t_max = 1e-6`, `num_points = 500`).  The first
statement executed is `r = m * v_perp / (q * B)`, a scalar float division:
when `q * B = 0` (i.e. `B = 0`) Python raises `ZeroDivisionError` before any
coordinate array is built, modelled here as `none`; otherwise the function
returns the sampled coordinates. -/
noncomputable def particle_trajectory (B v_perp v_parallel t_max : ℚ)
    (num_points : ℕ) : Option (ℕ → ℝ × ℝ × ℝ) :=
  if q * B = 0 then none
  else some (trajPoint B v_perp v_parallel t_max num_points)

theorem q_ne_zero : q ≠ 0 := by norm_num [q]

theorem particle_trajectory_eq_some (B v_perp v_parallel t_max : ℚ)
    (num_points : ℕ) (hB : B ≠ 0) :
    particle_trajectory B v_perp v_parallel t_max num_points =
      some (trajPoint B v_perp v_parallel t_max num_points) := by
  rw [particle_trajectory, if_neg (mul_ne_zero q_ne_zero hB)]

end Lorentz

namespace Faraday

/-- Time step of the simulation grid, `dt = 0.01` s, fixed in the source. -/
def dt : ℚ := 1 / 100

/-- Number of samples of `np.arange 0 duration dt`: `⌈duration / dt⌉`
(empty for nonpositive duration). -/
def numSamples (duration : ℚ) : ℕ := (⌈duration / dt⌉).toNat

/-- Sample time `t_i = i * dt`. -/
def tSample (i : ℕ) : ℚ := i * dt

/-- Gaussian field profile of the magnet at position `x`:
`B0 * exp (-((x - x0)^2) / (2 * sigma^2))` with `x0 = L / 2` and
`sigma = L / 10`, as in the source. -/
noncomputable def B_field (B0 L x : ℚ) : ℝ :=
  (B0 : ℝ) * Real.exp (-(((x : ℝ) - (L : ℝ) / 2) ^ 2) / (2 * ((L : ℝ) / 10) ^ 2))

/-- Magnetic flux through the coil at sample `i`: `flux = B_field * A`, with
the magnet at `x = v * t_i`. -/
noncomputable def flux (v A B0 L : ℚ) (i : ℕ) : ℝ :=
  B_field B0 L (v * tSample i) * (A : ℝ)

/-- `np.gradient f h` (default `edge_order = 1`) on an array of `n ≥ 2`
samples: second-order central difference in the interior, first-order
one-sided differences at the two ends. -/
noncomputable def npGradient (h : ℝ) (f : ℕ → ℝ) (n i : ℕ) : ℝ :=
  if i = 0 then (f 1 - f 0) / h
  else if i = n - 1 then (f (n - 1) - f (n - 2)) / h
  else (f (i + 1) - f (i - 1)) / (2 * h)

/-- Induced EMF at sample `i`: `emf = -N * np.gradient flux dt`, as in the
source.  This is the value of the source's `emf` array only on grids of at
least two samples; for smaller grids `np.gradient` raises `ValueError` and
the source produces no `emf` array at all (see `faraday_simulation`). -/
noncomputable def emf (v A B0 L N duration : ℚ) (i : ℕ) : ℝ :=
  -(N : ℝ) * npGradient (dt : ℝ) (flux v A B0 L) (numSamples duration) i

/-- The sampled waveform computed by `faraday_simulation`: one
`(time, flux, emf)` triple per grid index.  `np.gradient` (default
`edge_order = 1`) raises `ValueError` on a grid of fewer than two samples,
so for `duration ≤ dt` the source crashes and produces no waveform,
modelled as `none`. -/
noncomputable def faraday_simulation (v A B0 L N duration : ℚ) :
    Option (List (ℝ × ℝ × ℝ)) :=
  if numSamples duration < 2 then none
  else some ((List.range (numSamples duration)).map fun i =>
    ((tSample i : ℝ), flux v A B0 L i, emf v A B0 L N duration i))

theorem faraday_simulation_length (v A B0 L N duration : ℚ)
    (hn : 2 ≤ numSamples duration) :
    (faraday_simulation v A B0 L N duration).map List.length =
      some (numSamples duration) := by
  rw [faraday_simulation, if_neg (by omega)]
  simp

end Faraday

/-- Claim C1: called with `B = 0`, `particle_trajectory` fails with an
explicit error (Python's `ZeroDivisionError` raised at
`r = m * v_perp / (q * B)`, modelled as `none`) instead of returning
coordinate arrays containing infinite or NaN values. -/
theorem C1_zero_field_error (v_perp v_parallel t_max : ℚ) (num_points : ℕ) :
    Lorentz.particle_trajectory 0 v_perp v_parallel t_max num_points = none := by
  rw [Lorentz.particle_trajectory, if_pos (mul_zero Lorentz.q)]

/-- Claim C5: for every `B ≠ 0` and all `v_perp`, `v_parallel`, every sample
`(x_i, y_i, z_i)` returned by `particle_trajectory` satisfies
`x_i ^ 2 + y_i ^ 2 = r ^ 2` with `r = m * v_perp / (q * B)`. -/
theorem C5_on_cylinder (B v_perp v_parallel t_max : ℚ) (num_points i : ℕ)
    (f : ℕ → ℝ × ℝ × ℝ) (hB : B ≠ 0) (hi : i < num_points)
    (hf : Lorentz.particle_trajectory B v_perp v_parallel t_max num_points = some f) :
    (f i).1 ^ 2 + (f i).2.1 ^ 2 = ((Lorentz.radius B v_perp : ℚ) : ℝ) ^ 2 := by
  rw [Lorentz.particle_trajectory_eq_some B v_perp v_parallel t_max num_points hB,
    Option.some_inj] at hf
  subst hf
  rw [Lorentz.trajPoint, mul_pow, mul_pow, ← mul_add, Real.cos_sq_add_sin_sq,
    mul_one]

/-- Witness for C5 at `B = 1`, `v_perp = 1`, `v_parallel = 200000`,
`t_max = 1e-6`, `num_points = 500`, sample `i = 0`. -/
theorem C5_on_cylinder_witness :
    (Lorentz.trajPoint 1 1 200000 (1 / 1000000) 500 0).1 ^ 2 +
      (Lorentz.trajPoint 1 1 200000 (1 / 1000000) 500 0).2.1 ^ 2 =
      ((Lorentz.radius 1 1 : ℚ) : ℝ) ^ 2 :=
  C5_on_cylinder 1 1 200000 (1 / 1000000) 500 0 _ (by norm_num)
    (by norm_num)
    (Lorentz.particle_trajectory_eq_some 1 1 200000 (1 / 1000000) 500 (by norm_num))

/-- Claim C6: for every `B ≠ 0` and all `v_perp`, `v_parallel`, the
z-coordinate returned by `particle_trajectory` is exactly linear in the
sample times: `z_i = v_parallel * t_i` at every sample. -/
theorem C6_z_linear (B v_perp v_parallel t_max : ℚ) (num_points i : ℕ)
    (f : ℕ → ℝ × ℝ × ℝ) (hB : B ≠ 0) (hi : i < num_points)
    (hf : Lorentz.particle_trajectory B v_perp v_parallel t_max num_points = some f) :
    (f i).2.2 = (v_parallel : ℝ) * ((Lorentz.linspace t_max num_points i : ℚ) : ℝ) := by
  rw [Lorentz.particle_trajectory_eq_some B v_perp v_parallel t_max num_points hB,
    Option.some_inj] at hf
  subst hf
  rw [Lorentz.trajPoint]
  push_cast
  ring

/-- Witness for C6 at `B = 1`, `v_perp = 1`, `v_parallel = 200000`,
`t_max = 1e-6`, `num_points = 500`, sample `i = 3`. -/
theorem C6_z_linear_witness :
    (Lorentz.trajPoint 1 1 200000 (1 / 1000000) 500 3).2.2 =
      ((200000 : ℚ) : ℝ) * ((Lorentz.linspace (1 / 1000000) 500 3 : ℚ) : ℝ) :=
  C6_z_linear 1 1 200000 (1 / 1000000) 500 3 _ (by norm_num) (by norm_num)
    (Lorentz.particle_trajectory_eq_some 1 1 200000 (1 / 1000000) 500 (by norm_num))

/-- Consecutive samples of `linspace` on a nonnegative interval are
non-decreasing. -/
theorem Lorentz.linspace_le_succ (t_max : ℚ) (num_points i : ℕ)
    (ht : 0 ≤ t_max) :
    Lorentz.linspace t_max num_points i ≤
      Lorentz.linspace t_max num_points (i + 1) := by
  unfold Lorentz.linspace
  split
  · exact le_refl 0
  · next h =>
    have hd : (0 : ℚ) < (num_points : ℚ) - 1 := by
      have h1 : (2 : ℚ) ≤ (num_points : ℚ) := by exact_mod_cast by omega
      linarith
    rw [div_le_div_iff₀ hd hd]
    have hi : (i : ℚ) ≤ ((i + 1 : ℕ) : ℚ) := by exact_mod_cast Nat.le_succ i
    exact mul_le_mul_of_nonneg_right
      (mul_le_mul_of_nonneg_left hi ht) hd.le

/-- Claim C7: for every `B ≠ 0` and `v_parallel ≥ 0`, with the default
`t_max = 1e-6`, the z-coordinates returned by `particle_trajectory` are
monotonically non-decreasing: `z_i ≤ z_(i+1)` for consecutive samples. -/
theorem C7_z_monotone (B v_perp v_parallel : ℚ) (num_points i : ℕ)
    (f : ℕ → ℝ × ℝ × ℝ) (hB : B ≠ 0) (hv : 0 ≤ v_parallel)
    (hi : i + 1 < num_points)
    (hf : Lorentz.particle_trajectory B v_perp v_parallel (1 / 1000000) num_points
      = some f) :
    (f i).2.2 ≤ (f (i + 1)).2.2 := by
  rw [Lorentz.particle_trajectory_eq_some B v_perp v_parallel (1 / 1000000)
    num_points hB, Option.some_inj] at hf
  subst hf
  rw [Lorentz.trajPoint, Lorentz.trajPoint]
  rw [Rat.cast_le]
  exact mul_le_mul_of_nonneg_left
    (Lorentz.linspace_le_succ (1 / 1000000) num_points i (by norm_num)) hv

/-- Witness for C7 at `B = 1`, `v_perp = 1`, `v_parallel = 200000`,
`num_points = 500`, samples `0` and `1`. -/
theorem C7_z_monotone_witness :
    (Lorentz.trajPoint 1 1 200000 (1 / 1000000) 500 0).2.2 ≤
      (Lorentz.trajPoint 1 1 200000 (1 / 1000000) 500 1).2.2 :=
  C7_z_monotone 1 1 200000 500 0 _ (by norm_num) (by norm_num) (by norm_num)
    (Lorentz.particle_trajectory_eq_some 1 1 200000 (1 / 1000000) 500 (by norm_num))

/-- Claim C9: for every `B ≠ 0` and `v_perp`, `particle_trajectory` computes
`r = m * v_perp / (q * B)` and `omega = q * B / m` with the fixed constants
`q = 1.6e-19` and `m = 9.11e-31`; in particular for `B = 1e-3`,
`v_perp = 1e6` the radius is `911 / 160000 = 0.00569375 ≈ 5.69e-3` m. -/
theorem C9_radius_omega (B v_perp : ℚ) (hB : B ≠ 0) :
    Lorentz.radius B v_perp = Lorentz.m * v_perp / (Lorentz.q * B) ∧
    Lorentz.omega B = Lorentz.q * B / Lorentz.m ∧
    Lorentz.q = 16 / 10 ^ 20 ∧ Lorentz.m = 911 / 10 ^ 33 ∧
    Lorentz.radius (1 / 1000) 1000000 = 911 / 160000 := by
  refine ⟨rfl, rfl, rfl, rfl, ?_⟩
  norm_num [Lorentz.radius, Lorentz.q, Lorentz.m]

/-- Witness for C9 at `B = 1`, `v_perp = 1`. -/
theorem C9_radius_omega_witness :
    Lorentz.radius 1 1 = Lorentz.m * 1 / (Lorentz.q * 1) ∧
    Lorentz.omega 1 = Lorentz.q * 1 / Lorentz.m ∧
    Lorentz.q = 16 / 10 ^ 20 ∧ Lorentz.m = 911 / 10 ^ 33 ∧
    Lorentz.radius (1 / 1000) 1000000 = 911 / 160000 :=
  C9_radius_omega 1 1 (by norm_num)

/-- Claim C10: for every `B ≠ 0` and all `v_perp`, `v_parallel`, the first
sample returned by `particle_trajectory` is `(r, 0, 0)` with
`r = m * v_perp / (q * B)`: the trajectory begins on the x-axis at signed
distance `r` from the origin. -/
theorem C10_first_sample (B v_perp v_parallel t_max : ℚ) (num_points : ℕ)
    (f : ℕ → ℝ × ℝ × ℝ) (hB : B ≠ 0)
    (hf : Lorentz.particle_trajectory B v_perp v_parallel t_max num_points = some f) :
    f 0 = (((Lorentz.radius B v_perp : ℚ) : ℝ), 0, 0) := by
  rw [Lorentz.particle_trajectory_eq_some B v_perp v_parallel t_max num_points hB,
    Option.some_inj] at hf
  subst hf
  have h0 : Lorentz.linspace t_max num_points 0 = 0 := by
    unfold Lorentz.linspace
    split <;> simp
  rw [Lorentz.trajPoint, h0]
  simp

/-- Witness for C10 at `B = 1`, `v_perp = 1`, `v_parallel = 200000`,
`t_max = 1e-6`, `num_points = 500`. -/
theorem C10_first_sample_witness :
    Lorentz.trajPoint 1 1 200000 (1 / 1000000) 500 0 =
      (((Lorentz.radius 1 1 : ℚ) : ℝ), 0, 0) :=
  C10_first_sample 1 1 200000 (1 / 1000000) 500 _ (by norm_num)
    (Lorentz.particle_trajectory_eq_some 1 1 200000 (1 / 1000000) 500 (by norm_num))

/-- Claim C2: for every positive `v`, `A`, `B0`, `L`, `duration`, the flux at
each grid sample `t_i = i * 0.01` computed by `faraday_simulation` equals
`B0 * exp (-((v * t_i - L/2)^2) / (2 * (L/10)^2)) * A`. -/
theorem C2_flux_formula (v A B0 L duration : ℚ) (i : ℕ)
    (hv : 0 < v) (hA : 0 < A) (hB0 : 0 < B0) (hL : 0 < L) (hd : 0 < duration)
    (hi : i < Faraday.numSamples duration) :
    Faraday.flux v A B0 L i =
      (B0 : ℝ) * Real.exp (-(((v : ℝ) * ((i : ℝ) * (1 / 100)) - (L : ℝ) / 2) ^ 2) /
        (2 * ((L : ℝ) / 10) ^ 2)) * (A : ℝ) := by
  rw [Faraday.flux, Faraday.B_field, Faraday.tSample, Faraday.dt]
  push_cast
  ring_nf

/-- Witness for C2 at `v = A = B0 = L = 1`, `duration = 2`, sample `i = 0`. -/
theorem C2_flux_formula_witness :
    Faraday.flux 1 1 1 1 0 =
      ((1 : ℚ) : ℝ) * Real.exp (-((((1 : ℚ) : ℝ) * (((0 : ℕ) : ℝ) * (1 / 100)) -
        ((1 : ℚ) : ℝ) / 2) ^ 2) / (2 * (((1 : ℚ) : ℝ) / 10) ^ 2)) * ((1 : ℚ) : ℝ) :=
  C2_flux_formula 1 1 1 1 2 0 (by norm_num) (by norm_num) (by norm_num)
    (by norm_num) (by norm_num) (by norm_num [Faraday.numSamples, Faraday.dt])

/-- Claim C3: for positive inputs (and a grid of at least two samples, as
required by `np.gradient`), the EMF sequence is `-N` times the numerical
gradient of the flux with step `dt = 0.01`: one-sided differences at the
first and last samples, central differences in the interior. -/
theorem C3_emf_gradient (v A B0 L N duration : ℚ)
    (hv : 0 < v) (hA : 0 < A) (hB0 : 0 < B0) (hL : 0 < L) (hN : 0 < N)
    (hd : 0 < duration) (hn : 2 ≤ Faraday.numSamples duration) :
    (Faraday.emf v A B0 L N duration 0 =
      -(N : ℝ) * ((Faraday.flux v A B0 L 1 - Faraday.flux v A B0 L 0) /
        (1 / 100))) ∧
    (∀ i, 0 < i → i < Faraday.numSamples duration - 1 →
      Faraday.emf v A B0 L N duration i =
        -(N : ℝ) * ((Faraday.flux v A B0 L (i + 1) - Faraday.flux v A B0 L (i - 1)) /
          (2 * (1 / 100)))) ∧
    (Faraday.emf v A B0 L N duration (Faraday.numSamples duration - 1) =
      -(N : ℝ) * ((Faraday.flux v A B0 L (Faraday.numSamples duration - 1) -
        Faraday.flux v A B0 L (Faraday.numSamples duration - 2)) / (1 / 100))) := by
  refine ⟨?_, ?_, ?_⟩
  · rw [Faraday.emf, Faraday.npGradient, if_pos rfl]
    norm_num [Faraday.dt]
  · intro i h1 h2
    rw [Faraday.emf, Faraday.npGradient, if_neg (by omega), if_neg (by omega)]
    norm_num [Faraday.dt]
  · rw [Faraday.emf, Faraday.npGradient, if_neg (by omega), if_pos rfl]
    norm_num [Faraday.dt]

/-- Witness for C3 at `v = A = B0 = L = 1`, `N = 100`, `duration = 2`
(a 200-sample grid), first sample. -/
theorem C3_emf_gradient_witness :
    Faraday.emf 1 1 1 1 100 2 0 =
      -((100 : ℚ) : ℝ) * ((Faraday.flux 1 1 1 1 1 - Faraday.flux 1 1 1 1 0) /
        (1 / 100)) :=
  (C3_emf_gradient 1 1 1 1 100 2 (by norm_num) (by norm_num) (by norm_num)
    (by norm_num) (by norm_num) (by norm_num)
    (by norm_num [Faraday.numSamples, Faraday.dt])).1

/-- Claim C4: for positive parameters, the flux at the sample whose time is
`t = L / (2 * v)` — the magnet centered at `L / 2` — equals `B0 * A`, the
Gaussian peak; in particular for `v = A = B0 = L = 1` the flux at
`t = 0.5` s (sample 50) is `1` Wb. -/
theorem C4_flux_peak (v A B0 L duration : ℚ) (i : ℕ)
    (hv : 0 < v) (hA : 0 < A) (hB0 : 0 < B0) (hL : 0 < L) (hd : 0 < duration)
    (hi : Faraday.tSample i = L / (2 * v)) :
    Faraday.flux v A B0 L i = (B0 : ℝ) * (A : ℝ) ∧
    Faraday.flux 1 1 1 1 50 = 1 := by
  constructor
  · have hv' : v ≠ 0 := ne_of_gt hv
    have hx : v * Faraday.tSample i = L / 2 := by
      rw [hi]
      field_simp
      ring
    rw [Faraday.flux, hx, Faraday.B_field]
    have h0 : ((L / 2 : ℚ) : ℝ) - (L : ℝ) / 2 = 0 := by push_cast; ring
    rw [h0]
    norm_num [Real.exp_zero]
  · have h50 : (1 : ℚ) * Faraday.tSample 50 = 1 / 2 := by
      norm_num [Faraday.tSample, Faraday.dt]
    rw [Faraday.flux, h50, Faraday.B_field]
    have h0 : ((1 / 2 : ℚ) : ℝ) - ((1 : ℚ) : ℝ) / 2 = 0 := by push_cast; ring
    rw [h0]
    norm_num [Real.exp_zero]

/-- Witness for C4 at `v = A = B0 = L = 1`, `duration = 2`, sample `i = 50`
(`t = 0.5 = L / (2 v)`). -/
theorem C4_flux_peak_witness :
    Faraday.flux 1 1 1 1 50 = ((1 : ℚ) : ℝ) * ((1 : ℚ) : ℝ) ∧
    Faraday.flux 1 1 1 1 50 = 1 :=
  C4_flux_peak 1 1 1 1 2 50 (by norm_num) (by norm_num) (by norm_num)
    (by norm_num) (by norm_num) (by norm_num [Faraday.tSample, Faraday.dt])

/-- Counterexample to claim C8: at `duration = 0.015` the code runs to
completion (`np.arange` gives the 2-element grid `[0, 0.01]` and
`np.gradient` accepts it) and the waveform has 2 samples, while
`duration / dt = 3/2` — so the sample count is not `duration / dt` for
every positive duration. -/
theorem C8_length_counterexample :
    (Faraday.faraday_simulation 1 1 1 1 100 (3 / 200)).map List.length =
      some 2 ∧ ((2 : ℚ) ≠ (3 / 200) / (1 / 100)) := by
  have hc : Faraday.numSamples (3 / 200) = 2 := by
    have hq : (3 / 200 : ℚ) / Faraday.dt = 3 / 2 := by norm_num [Faraday.dt]
    have h2 : ⌊(-(3 / 2) : ℚ)⌋ = -2 := by norm_num
    have h : ⌊(-(3 / 2) : ℚ)⌋ = -⌈(3 / 2 : ℚ)⌉ := Int.floor_neg
    have h3 : (⌈(3 / 2 : ℚ)⌉ : ℤ) = 2 := by omega
    rw [Faraday.numSamples, hq, h3]
    rfl
  constructor
  · rw [Faraday.faraday_simulation, hc, if_neg (by norm_num)]
    simp
  · norm_num

/-- Claim C8 as amended: whenever `duration` is an integer multiple
`k * dt` of the fixed `dt = 0.01` s step with `k ≥ 2` — as for every
slider value — `faraday_simulation` produces a waveform, one
`(time, flux, emf)` triple per grid index, of exactly `duration / dt`
samples.  (Other positive durations give `⌈duration / dt⌉` samples, or no
waveform at all when `duration ≤ dt` makes `np.gradient` raise.) -/
theorem C8_waveform_length (v A B0 L N duration : ℚ) (k : ℕ)
    (hd : 0 < duration) (hk : duration = k * Faraday.dt) (hk2 : 2 ≤ k) :
    (Faraday.faraday_simulation v A B0 L N duration).map List.length =
      some (Faraday.numSamples duration) ∧
    ((Faraday.numSamples duration : ℚ) = duration / Faraday.dt) := by
  have h1 : duration / Faraday.dt = (k : ℚ) := by
    rw [hk]
    have hdt : Faraday.dt ≠ 0 := by norm_num [Faraday.dt]
    field_simp
  have hns : Faraday.numSamples duration = k := by
    rw [Faraday.numSamples, h1, Int.ceil_natCast]
    simp
  constructor
  · exact Faraday.faraday_simulation_length v A B0 L N duration
      (by rw [hns]; exact hk2)
  · rw [hns, h1]

/-- Witness for C8 (amended) at `duration = 2`, `k = 200`. -/
theorem C8_waveform_length_witness :
    (Faraday.faraday_simulation 1 1 1 1 100 2).map List.length =
      some (Faraday.numSamples 2) ∧
    ((Faraday.numSamples 2 : ℚ) = 2 / Faraday.dt) :=
  C8_waveform_length 1 1 1 1 100 2 200 (by norm_num) (by norm_num [Faraday.dt])
    (by norm_num)
